import Mathlib

/-!
Verification of the rate-limiter core (`rate_limiter` package and the `app`
admission adapter) as a shallow embedding in Lean.

Python floats that hold token counts and monotonic-clock readings are modelled
by exact rationals (`ℚ`); Python ints (timestamps in ms, request counts,
retry-after values) by `ℤ`.  The only float value outside that range that the
code produces is `float("inf")` in the fail-open branch, so the `remaining`
field is modelled by `PyFloat`, a rational extended with an infinity point.
Code that raises `ValueError` is modelled with `Option`: `none` is the raised
exception.  Mutable per-key state becomes an explicit state argument/result:
every `check` maps (config, state-for-the-key, clock, arguments) to
(result, new state-for-the-key).
-/

namespace RateLimiter

/-- A Python float as used by the limiters: either a finite value (modelled
exactly as a rational) or the positive-infinity sentinel produced by
`float("inf")` in the fail-open branch. -/
inductive PyFloat where
  | val (q : ℚ)
  | inf
deriving DecidableEq, Repr

/-- The metadata dictionary attached to a `RateLimitResult`.  The code only
ever stores the keys `algorithm`, `backend`, `mode`, `error` and
`window_size_ms`; absent keys are `none`. -/
structure Metadata where
  algorithm : String
  backend : String
  mode : Option String
  error : Option String
  windowSizeMs : Option ℤ
deriving DecidableEq, Repr

/-- `rate_limiter.results.RateLimitResult` from `src/rate_limiter/results.py`. -/
structure RateLimitResult where
  allowed : Bool
  remaining : PyFloat
  retry_after_ms : ℤ
  metadata : Metadata
deriving DecidableEq, Repr

/-- `rate_limiter.config.TokenBucketConfig`. -/
structure TokenBucketConfig where
  capacity : ℤ
  refill_rate : ℚ
deriving DecidableEq, Repr

/-- `rate_limiter.config.SlidingWindowConfig`. -/
structure SlidingWindowConfig where
  window_size_ms : ℤ
  max_requests : ℤ
deriving DecidableEq, Repr

/-- `rate_limiter.config.RedisConfig` (field `key_prefix` is called
`keyPrefix` here). -/
structure RedisConfig where
  host : String
  port : ℤ
  db : ℤ
  keyPrefix : String
  fail_open : Bool
  socket_connect_timeout_s : ℚ
  socket_timeout_s : ℚ
deriving DecidableEq, Repr

/-- The per-key entry of `TokenBucketLimiter._state`: the pair
`(tokens, ts)`. -/
structure TBState where
  tokens : ℚ
  ts : ℚ
deriving DecidableEq, Repr

/-- The constructor checks of `TokenBucketLimiter.__init__`:
`capacity > 0` and `refill_rate >= 0`. -/
def TBValid (cfg : TokenBucketConfig) : Prop :=
  0 < cfg.capacity ∧ 0 ≤ cfg.refill_rate

instance (cfg : TokenBucketConfig) : Decidable (TBValid cfg) := by
  unfold TBValid; infer_instance

/-- The constructor checks of `SlidingWindowLimiter.__init__`:
`window_size_ms > 0` and `max_requests > 0`. -/
def SWValid (cfg : SlidingWindowConfig) : Prop :=
  0 < cfg.window_size_ms ∧ 0 < cfg.max_requests

instance (cfg : SlidingWindowConfig) : Decidable (SWValid cfg) := by
  unfold SWValid; infer_instance

/-- The state-loading step of `TokenBucketLimiter.check`: a missing entry is
initialised to `(capacity, now)`. -/
def tbInit (cfg : TokenBucketConfig) (st : Option TBState) (now : ℚ) : TBState :=
  st.getD ⟨(cfg.capacity : ℚ), now⟩

/-- The refill step of `TokenBucketLimiter.check`:
`delta = max(0, now - ts)`, `refill = delta * refill_rate`, and only when
`refill > 0` are the tokens topped up (capped at `capacity`) and the stored
timestamp advanced to `now`. -/
def tbRefill (cfg : TokenBucketConfig) (s : TBState) (now : ℚ) : TBState :=
  let delta := max 0 (now - s.ts)
  let refill := delta * cfg.refill_rate
  if 0 < refill then ⟨min (cfg.capacity : ℚ) (s.tokens + refill), now⟩ else s

/-- `TokenBucketLimiter.check` from `src/rate_limiter/in_memory.py`, as a pure
function of the per-key state.  `none` models the `ValueError` raised on
`tokens <= 0`; otherwise the result and the state written back to
`self._state[key]` are returned. -/
def TokenBucketLimiter.check (cfg : TokenBucketConfig) (st : Option TBState)
    (now : ℚ) (tokens : ℤ) : Option (RateLimitResult × TBState) :=
  if tokens ≤ 0 then none
  else
    let s1 := tbRefill cfg (tbInit cfg st now) now
    if (tokens : ℚ) ≤ s1.tokens then
      some (⟨true, .val (s1.tokens - (tokens : ℚ)), 0,
             ⟨"token_bucket", "memory", none, none, none⟩⟩,
            ⟨s1.tokens - (tokens : ℚ), s1.ts⟩)
    else
      let retry : ℤ :=
        if 0 < cfg.refill_rate then
          ⌈((tokens : ℚ) - s1.tokens) / cfg.refill_rate * 1000⌉
        else 0
      some (⟨false, .val s1.tokens, retry,
             ⟨"token_bucket", "memory", none, none, none⟩⟩, s1)

/-- The token-bucket decision procedure exactly as the spec words it
(§4.2 steps 1-6): load-or-initialise, `delta ← max(0, now − ts)`,
`t ← min(capacity, t + delta · refill_rate)` unconditionally, `ts ← now` when
a refill occurred (`delta · refill_rate > 0`), allow and deduct when
`t ≥ tokens`, otherwise deny with
`retry_after_ms = ⌈(tokens − t) / refill_rate · 1000⌉` when `refill_rate > 0`
and `0` otherwise, store `(t, ts)` and return `remaining = t`. -/
def specTokenBucketCheck (cfg : TokenBucketConfig) (st : Option TBState)
    (now : ℚ) (tokens : ℤ) : RateLimitResult × TBState :=
  let s := tbInit cfg st now
  let delta := max 0 (now - s.ts)
  let t1 := min (cfg.capacity : ℚ) (s.tokens + delta * cfg.refill_rate)
  let ts1 := if 0 < delta * cfg.refill_rate then now else s.ts
  if (tokens : ℚ) ≤ t1 then
    (⟨true, .val (t1 - (tokens : ℚ)), 0,
      ⟨"token_bucket", "memory", none, none, none⟩⟩,
     ⟨t1 - (tokens : ℚ), ts1⟩)
  else
    (⟨false, .val t1,
      if 0 < cfg.refill_rate then
        ⌈((tokens : ℚ) - t1) / cfg.refill_rate * 1000⌉
      else 0,
      ⟨"token_bucket", "memory", none, none, none⟩⟩, ⟨t1, ts1⟩)

/-- The per-key states reachable through `TokenBucketLimiter.check`, starting
from an absent entry. -/
inductive TBReachable (cfg : TokenBucketConfig) : Option TBState → Prop where
  | init : TBReachable cfg none
  | step (st : Option TBState) (now : ℚ) (tokens : ℤ) (r : RateLimitResult)
      (st' : TBState) : TBReachable cfg st →
      TokenBucketLimiter.check cfg st now tokens = some (r, st') →
      TBReachable cfg (some st')

/-- The pruning loop of `SlidingWindowLimiter.check`:
`while q and q[0] <= cutoff: q.popleft()`. -/
def swPrune (cutoff : ℤ) : List ℤ → List ℤ
  | [] => []
  | x :: xs => if x ≤ cutoff then swPrune cutoff xs else x :: xs

/-- `SlidingWindowLimiter.check` from `src/rate_limiter/in_memory.py`, as a
pure function of the per-key deque (an absent key is the empty deque the code
creates on first use).  `none` models the `IndexError` the code would raise
reading `q[0]` from an empty deque; with a valid config that branch is
unreachable.  Returns the result and the deque left in `self._state[key]`. -/
def SlidingWindowLimiter.check (cfg : SlidingWindowConfig) (q : List ℤ)
    (now_ms : ℤ) : Option (RateLimitResult × List ℤ) :=
  let cutoff := now_ms - cfg.window_size_ms
  let q1 := swPrune cutoff q
  if (q1.length : ℤ) < cfg.max_requests then
    let q2 := q1 ++ [now_ms]
    some (⟨true, .val ((cfg.max_requests - (q2.length : ℤ) : ℤ) : ℚ), 0,
           ⟨"sliding_window_log", "memory", none, none, some cfg.window_size_ms⟩⟩,
          q2)
  else
    match q1 with
    | [] => none
    | oldest :: rest =>
      some (⟨false, .val 0,
             max 0 (cfg.window_size_ms - (now_ms - oldest)),
             ⟨"sliding_window_log", "memory", none, none, some cfg.window_size_ms⟩⟩,
            oldest :: rest)

/-- The per-decision trace of an in-process sliding-window limiter: starting
from deque `q`, run `check` at each clock value of `nows` in order and record
each decision's clock together with the deque stored at the end of that
decision. -/
def swTrace (cfg : SlidingWindowConfig) : List ℤ → List ℤ → List (ℤ × List ℤ)
  | _, [] => []
  | q, n :: ns =>
    match SlidingWindowLimiter.check cfg q n with
    | none => []
    | some (_, q1) => (n, q1) :: swTrace cfg q1 ns

/-- The outcome of the KV round-trip of a shared-state limiter `check`,
mirroring the `try/except` structure of `redis_limiters.py`.  The primary
attempt (`SCRIPT LOAD` when the digest is uncached, then `EVALSHA`) either
returns the script's triple `(allowed, tokens_left_or_remaining,
retry_after_ms)` (`ok`), raises `redis.exceptions.NoScriptError`
(`noScript`), or raises `redis.exceptions.ConnectionError` /
`redis.exceptions.TimeoutError` carrying its message (`connError`).  In the
`noScript` case the handler re-runs `EVAL` and then `SCRIPT LOAD`; their
combined outcome is an `Except`, because an exception raised inside that
handler is not caught by the sibling connectivity clause of the same `try`
and propagates out of `check` uncaught. -/
inductive KVOutcome where
  | ok (allowed : ℤ) (left : ℚ) (retryMs : ℤ)
  | noScript (fallback : Except String (ℤ × ℚ × ℤ))
  | connError (msg : String)
deriving Repr

/-- `RedisTokenBucketLimiter._key` from `src/rate_limiter/redis_limiters.py`:
the f-string concatenates the configured key prefix and the user key with no
separator of its own. -/
def RedisTokenBucketLimiter.kvKey (rcfg : RedisConfig) (key : String) : String :=
  rcfg.keyPrefix ++ key

/-- `RedisSlidingWindowLimiter._key`, identical to the token-bucket one. -/
def RedisSlidingWindowLimiter.kvKey (rcfg : RedisConfig) (key : String) : String :=
  rcfg.keyPrefix ++ key

/-- `RedisTokenBucketLimiter.check`, as a function of the KV round-trip
outcome.  `none` models an exception propagating out of `check`: the
`ValueError` on `tokens <= 0`, or an exception raised inside the
`except NoScriptError` handler (which the sibling connectivity clause does
not catch).  Only a connectivity or timeout error raised by the primary
attempt reaches the configured failure policy. -/
def RedisTokenBucketLimiter.check (tokens : ℤ) (rcfg : RedisConfig)
    (outcome : KVOutcome) : Option RateLimitResult :=
  if tokens ≤ 0 then none
  else
    match outcome with
    | .ok allowed left retryMs =>
      some ⟨decide (allowed ≠ 0), .val left, retryMs,
            ⟨"token_bucket", "redis", none, none, none⟩⟩
    | .noScript (.ok (allowed, left, retryMs)) =>
      some ⟨decide (allowed ≠ 0), .val left, retryMs,
            ⟨"token_bucket", "redis", none, none, none⟩⟩
    | .noScript (.error _) => none
    | .connError msg =>
      if rcfg.fail_open then
        some ⟨true, .inf, 0,
              ⟨"token_bucket", "redis", some "fail_open", some msg, none⟩⟩
      else
        some ⟨false, .val 0, 0,
              ⟨"token_bucket", "redis", some "fail_closed", some msg, none⟩⟩

/-- `RedisSlidingWindowLimiter.check`, as a function of the KV round-trip
outcome (no `tokens` argument, hence no `ValueError` path).  `none` models an
exception raised inside the `except NoScriptError` handler propagating out of
`check` uncaught. -/
def RedisSlidingWindowLimiter.check (rcfg : RedisConfig)
    (outcome : KVOutcome) : Option RateLimitResult :=
  match outcome with
  | .ok allowed left retryMs =>
    some ⟨decide (allowed ≠ 0), .val left, retryMs,
          ⟨"sliding_window_log", "redis", none, none, none⟩⟩
  | .noScript (.ok (allowed, left, retryMs)) =>
    some ⟨decide (allowed ≠ 0), .val left, retryMs,
          ⟨"sliding_window_log", "redis", none, none, none⟩⟩
  | .noScript (.error _) => none
  | .connError msg =>
    if rcfg.fail_open then
      some ⟨true, .inf, 0,
            ⟨"sliding_window_log", "redis", some "fail_open", some msg, none⟩⟩
    else
      some ⟨false, .val 0, 0,
            ⟨"sliding_window_log", "redis", some "fail_closed", some msg, none⟩⟩

/-- `app.limiter.RedisTokenBucket._bucket_key` from `src/app/limiter.py`:
the f-string inserts a colon between the configured key prefix and the user
key. -/
def RedisTokenBucket.bucket_key (keyPfx : String) (key : String) : String :=
  keyPfx ++ ":" ++ key

/-- `app.limiter.retry_after_header_value` (the identical copy lives in
`src/rate_limiter/results.py`): `None` for a non-positive value, otherwise
`str(max(1, (retry_after_ms + 999) // 1000))` — Python `//` is floor
division. -/
def retry_after_header_value (retry_after_ms : ℤ) : Option String :=
  if retry_after_ms ≤ 0 then none
  else some (toString (max 1 ((retry_after_ms + 999).fdiv 1000)))

/-- The exception reaching the `except Exception` clause of the `/limited`
handler in `src/app/main.py`: a Redis connection error, a Redis timeout
error, or any other exception (with its class name and message). -/
inductive PyExc where
  | connectionError (msg : String)
  | timeoutError (msg : String)
  | other (cls : String) (msg : String)
deriving DecidableEq, Repr

/-- `app.limiter.is_redis_available`: whether the exception is a Redis
`ConnectionError` or `TimeoutError`, paired with `str(err)`. -/
def is_redis_available : PyExc → Bool × String
  | .connectionError msg => (true, msg)
  | .timeoutError msg => (true, msg)
  | .other _ msg => (false, msg)

/-- An HTTP response of the adapter, reduced to its status code and the JSON
body modelled as the list of key/value pairs the handler writes (booleans
rendered as strings). -/
structure HttpResponse where
  status : ℤ
  body : List (String × String)
deriving DecidableEq, Repr

/-- The `except Exception` branch of the `/limited` handler in
`src/app/main.py`: classify the exception with `is_redis_available`; when it
is a connectivity error and `settings.failure_mode.lower() == "fail_closed"`,
answer 429 with the fail-closed body, otherwise fall through to the fail-open
success body (a plain `dict` return, HTTP 200). -/
def limitedOnException (failureMode : String) (exc : PyExc) : HttpResponse :=
  let p := is_redis_available exc
  if p.1 && (failureMode.toLower == "fail_closed") then
    ⟨429, [("detail", "rate limited (redis unavailable)"),
           ("mode", "fail_closed"), ("error", p.2)]⟩
  else
    ⟨200, [("ok", "true"), ("limited", "false"), ("mode", "fail_open"),
           ("note", "redis unavailable; request allowed")]⟩

/-- The 429 path of the `/limited` handler: the JSON body and the optional
`Retry-After` header derived from the result's `retry_after_ms`. -/
def limitedOnDenied (retryMs : ℤ) : HttpResponse × Option String :=
  (⟨429, [("detail", "too many requests"),
          ("retry_after_ms", toString retryMs)]⟩,
   retry_after_header_value retryMs)

example :
    SlidingWindowLimiter.check ⟨200, 2⟩ [] 10 =
      some (⟨true, .val 1, 0,
             ⟨"sliding_window_log", "memory", none, none, some 200⟩⟩, [10]) := by
  decide

example :
    SlidingWindowLimiter.check ⟨200, 2⟩ [10, 20] 30 =
      some (⟨false, .val 0, 180,
             ⟨"sliding_window_log", "memory", none, none, some 200⟩⟩, [10, 20]) := by
  decide

example :
    SlidingWindowLimiter.check ⟨150, 1⟩ [10] 195 =
      some (⟨true, .val 0, 0,
             ⟨"sliding_window_log", "memory", none, none, some 150⟩⟩, [195]) := by
  decide

example :
    TokenBucketLimiter.check ⟨3, 0⟩ none 0 1 =
      some (⟨true, .val 2, 0, ⟨"token_bucket", "memory", none, none, none⟩⟩,
            ⟨2, 0⟩) := by
  simp [TokenBucketLimiter.check, tbRefill, tbInit]
  norm_num

example :
    TokenBucketLimiter.check ⟨1, 10⟩ (some ⟨0, 0⟩) (12/100) 1 =
      some (⟨true, .val 0, 0, ⟨"token_bucket", "memory", none, none, none⟩⟩,
            ⟨0, 12/100⟩) := by
  simp [TokenBucketLimiter.check, tbRefill, tbInit]
  norm_num

example :
    TokenBucketLimiter.check ⟨1, 10⟩ (some ⟨0, 0⟩) 0 1 =
      some (⟨false, .val 0, 100, ⟨"token_bucket", "memory", none, none, none⟩⟩,
            ⟨0, 0⟩) := by
  simp [TokenBucketLimiter.check, tbRefill, tbInit]
  norm_num [Int.ceil_eq_iff]

theorem tbRefill_tokens_le_cap (cfg : TokenBucketConfig) (s : TBState) (now : ℚ)
    (hcap : s.tokens ≤ (cfg.capacity : ℚ)) :
    (tbRefill cfg s now).tokens ≤ (cfg.capacity : ℚ) := by
  unfold tbRefill
  dsimp only
  split
  · exact min_le_left _ _
  · exact hcap

theorem tbRefill_tokens_nonneg (cfg : TokenBucketConfig) (s : TBState) (now : ℚ)
    (hcap : 0 ≤ (cfg.capacity : ℚ)) (h0 : 0 ≤ s.tokens) :
    0 ≤ (tbRefill cfg s now).tokens := by
  unfold tbRefill
  dsimp only
  split
  · next h => exact le_min hcap (by linarith)
  · exact h0

theorem tbRefill_idem (cfg : TokenBucketConfig) (s : TBState) (now : ℚ) :
    tbRefill cfg (tbRefill cfg s now) now = tbRefill cfg s now := by
  by_cases h : 0 < max 0 (now - s.ts) * cfg.refill_rate
  · simp [tbRefill, h]
  · simp [tbRefill, h]

theorem tbRefill_spec (cfg : TokenBucketConfig) (s : TBState) (now : ℚ)
    (hrate : 0 ≤ cfg.refill_rate) (hcap : s.tokens ≤ (cfg.capacity : ℚ)) :
    tbRefill cfg s now =
      ⟨min (cfg.capacity : ℚ) (s.tokens + max 0 (now - s.ts) * cfg.refill_rate),
       if 0 < max 0 (now - s.ts) * cfg.refill_rate then now else s.ts⟩ := by
  unfold tbRefill
  dsimp only
  by_cases h : 0 < max 0 (now - s.ts) * cfg.refill_rate
  · simp [h]
  · have h0 : max 0 (now - s.ts) * cfg.refill_rate = 0 :=
      le_antisymm (not_lt.mp h) (mul_nonneg (le_max_left _ _) hrate)
    simp [h, h0, min_eq_right hcap]

theorem tb_check_cases (cfg : TokenBucketConfig)
    (st : Option TBState) (now : ℚ) (tokens : ℤ) (r : RateLimitResult)
    (st' : TBState)
    (h : TokenBucketLimiter.check cfg st now tokens = some (r, st')) :
    0 < tokens ∧
      (((tokens : ℚ) ≤ (tbRefill cfg (tbInit cfg st now) now).tokens ∧
        r = ⟨true,
             .val ((tbRefill cfg (tbInit cfg st now) now).tokens - (tokens : ℚ)),
             0, ⟨"token_bucket", "memory", none, none, none⟩⟩ ∧
        st' = ⟨(tbRefill cfg (tbInit cfg st now) now).tokens - (tokens : ℚ),
               (tbRefill cfg (tbInit cfg st now) now).ts⟩) ∨
       (¬ (tokens : ℚ) ≤ (tbRefill cfg (tbInit cfg st now) now).tokens ∧
        r = ⟨false, .val (tbRefill cfg (tbInit cfg st now) now).tokens,
             (if 0 < cfg.refill_rate then
                ⌈((tokens : ℚ) -
                   (tbRefill cfg (tbInit cfg st now) now).tokens) /
                  cfg.refill_rate * 1000⌉
              else 0),
             ⟨"token_bucket", "memory", none, none, none⟩⟩ ∧
        st' = tbRefill cfg (tbInit cfg st now) now)) := by
  by_cases ht : tokens ≤ 0
  · simp [TokenBucketLimiter.check, ht] at h
  · refine ⟨not_le.mp ht, ?_⟩
    simp only [TokenBucketLimiter.check, if_neg ht] at h
    by_cases hall : (tokens : ℚ) ≤ (tbRefill cfg (tbInit cfg st now) now).tokens
    · rw [if_pos hall] at h
      simp only [Option.some.injEq, Prod.mk.injEq] at h
      exact Or.inl ⟨hall, h.1.symm, h.2.symm⟩
    · rw [if_neg hall] at h
      simp only [Option.some.injEq, Prod.mk.injEq] at h
      exact Or.inr ⟨hall, h.1.symm, h.2.symm⟩

theorem tbReachable_bounds (cfg : TokenBucketConfig) (hv : TBValid cfg)
    {st : Option TBState} (h : TBReachable cfg st) :
    ∀ s, st = some s → 0 ≤ s.tokens ∧ s.tokens ≤ (cfg.capacity : ℚ) := by
  have hcap0 : (0 : ℚ) ≤ (cfg.capacity : ℚ) := by exact_mod_cast hv.1.le
  induction h with
  | init => intro s hs; cases hs
  | step st now tokens r st' hreach hchk ih =>
    intro s hs
    cases hs
    have hinit : 0 ≤ (tbInit cfg st now).tokens ∧
        (tbInit cfg st now).tokens ≤ (cfg.capacity : ℚ) := by
      cases st with
      | none => exact ⟨hcap0, le_refl _⟩
      | some s0 => exact ih s0 rfl
    have hs1lo := tbRefill_tokens_nonneg cfg (tbInit cfg st now) now hcap0 hinit.1
    have hs1hi := tbRefill_tokens_le_cap cfg (tbInit cfg st now) now hinit.2
    obtain ⟨ht, hcase | hcase⟩ :=
      tb_check_cases cfg st now tokens r st' hchk
    · obtain ⟨hall, -, hst'⟩ := hcase
      rw [hst']
      have ht1 : (1 : ℚ) ≤ (tokens : ℚ) := by exact_mod_cast ht
      constructor
      · dsimp only; linarith
      · dsimp only; linarith
    · obtain ⟨-, -, hst'⟩ := hcase
      rw [hst']
      exact ⟨hs1lo, hs1hi⟩

/-- Claim C1: with a valid config and a reachable per-key state, the
in-process token-bucket `check` computes exactly the spec's §4.2 algorithm:
refill by `delta · refill_rate` capped at `capacity` (storing `ts = now` only
when a refill occurred), allow and deduct when the refilled count covers the
request with `retry_after_ms = 0`, otherwise deny with
`retry_after_ms = ⌈(tokens − t) / refill_rate · 1000⌉` when `refill_rate > 0`
and `0` when `refill_rate = 0`, and return `remaining` equal to the token
count stored after the decision. -/
theorem tokenBucket_check_follows_spec (cfg : TokenBucketConfig)
    (st : Option TBState) (now : ℚ) (tokens : ℤ) (hv : TBValid cfg)
    (hreach : TBReachable cfg st) (ht : 0 < tokens) :
    TokenBucketLimiter.check cfg st now tokens =
      some (specTokenBucketCheck cfg st now tokens) := by
  have hcap : (tbInit cfg st now).tokens ≤ (cfg.capacity : ℚ) := by
    cases st with
    | none => simp [tbInit]
    | some s => exact (tbReachable_bounds cfg hv hreach s rfl).2
  have hs1 := tbRefill_spec cfg (tbInit cfg st now) now hv.2 hcap
  unfold TokenBucketLimiter.check specTokenBucketCheck
  rw [if_neg (not_le.mpr ht), hs1]
  dsimp only
  by_cases hc : (tokens : ℚ) ≤
      min (cfg.capacity : ℚ)
        ((tbInit cfg st now).tokens +
          max 0 (now - (tbInit cfg st now).ts) * cfg.refill_rate)
  · rw [if_pos hc, if_pos hc]
  · rw [if_neg hc, if_neg hc]

theorem tokenBucket_check_follows_spec_witness :
    TBValid ⟨3, 0⟩ ∧ TBReachable ⟨3, 0⟩ none ∧ (0 : ℤ) < 1 ∧
      TokenBucketLimiter.check ⟨3, 0⟩ none 0 1 =
        some (specTokenBucketCheck ⟨3, 0⟩ none 0 1) :=
  ⟨by decide, TBReachable.init, by decide,
   tokenBucket_check_follows_spec ⟨3, 0⟩ none 0 1 (by decide) TBReachable.init
     (by decide)⟩

theorem sw_check_cases (cfg : SlidingWindowConfig)
    (q : List ℤ) (now_ms : ℤ) (r : RateLimitResult) (q' : List ℤ)
    (h : SlidingWindowLimiter.check cfg q now_ms = some (r, q')) :
    (((swPrune (now_ms - cfg.window_size_ms) q).length : ℤ) < cfg.max_requests ∧
     r = ⟨true,
          .val ((cfg.max_requests -
                 ((swPrune (now_ms - cfg.window_size_ms) q).length + 1 : ℤ) : ℤ) : ℚ),
          0, ⟨"sliding_window_log", "memory", none, none, some cfg.window_size_ms⟩⟩ ∧
     q' = swPrune (now_ms - cfg.window_size_ms) q ++ [now_ms]) ∨
    (¬ ((swPrune (now_ms - cfg.window_size_ms) q).length : ℤ) < cfg.max_requests ∧
     ∃ oldest rest, swPrune (now_ms - cfg.window_size_ms) q = oldest :: rest ∧
       r = ⟨false, .val 0, max 0 (cfg.window_size_ms - (now_ms - oldest)),
            ⟨"sliding_window_log", "memory", none, none, some cfg.window_size_ms⟩⟩ ∧
       q' = oldest :: rest) := by
  unfold SlidingWindowLimiter.check at h
  by_cases hlt :
      ((swPrune (now_ms - cfg.window_size_ms) q).length : ℤ) < cfg.max_requests
  · rw [if_pos hlt] at h
    simp only [Option.some.injEq, Prod.mk.injEq] at h
    refine Or.inl ⟨hlt, ?_, h.2.symm⟩
    rw [← h.1]
    simp [List.length_append]
  · rw [if_neg hlt] at h
    cases hq1 : swPrune (now_ms - cfg.window_size_ms) q with
    | nil => rw [hq1] at h; cases h
    | cons oldest rest =>
      rw [hq1] at h
      simp only [Option.some.injEq, Prod.mk.injEq] at h
      exact Or.inr ⟨hq1 ▸ hlt, oldest, rest, rfl, h.1.symm, h.2.symm⟩

/-- Claim C2: every result of an in-process limiter call has
`0 ≤ remaining ≤ capacity` (token bucket, over reachable states) or
`0 ≤ remaining ≤ max_requests` (sliding window), `retry_after_ms ≥ 0`, and
`retry_after_ms = 0` whenever `allowed = true`. -/
theorem inMemory_result_bounds (tcfg : TokenBucketConfig)
    (scfg : SlidingWindowConfig) (st : Option TBState) (now : ℚ) (tokens : ℤ)
    (r1 : RateLimitResult) (st' : TBState) (q : List ℤ) (now_ms : ℤ)
    (r2 : RateLimitResult) (q' : List ℤ)
    (htv : TBValid tcfg) (hreach : TBReachable tcfg st) (hsv : SWValid scfg)
    (h1 : TokenBucketLimiter.check tcfg st now tokens = some (r1, st'))
    (h2 : SlidingWindowLimiter.check scfg q now_ms = some (r2, q')) :
    ((∃ v, r1.remaining = PyFloat.val v ∧ 0 ≤ v ∧ v ≤ (tcfg.capacity : ℚ)) ∧
     0 ≤ r1.retry_after_ms ∧ (r1.allowed = true → r1.retry_after_ms = 0)) ∧
    ((∃ v, r2.remaining = PyFloat.val v ∧ 0 ≤ v ∧ v ≤ (scfg.max_requests : ℚ)) ∧
     0 ≤ r2.retry_after_ms ∧ (r2.allowed = true → r2.retry_after_ms = 0)) := by
  have hcap0 : (0 : ℚ) ≤ (tcfg.capacity : ℚ) := by exact_mod_cast htv.1.le
  constructor
  · have hinit : 0 ≤ (tbInit tcfg st now).tokens ∧
        (tbInit tcfg st now).tokens ≤ (tcfg.capacity : ℚ) := by
      cases st with
      | none => exact ⟨hcap0, le_refl _⟩
      | some s0 => exact tbReachable_bounds tcfg htv hreach s0 rfl
    have hs1lo := tbRefill_tokens_nonneg tcfg (tbInit tcfg st now) now hcap0 hinit.1
    have hs1hi := tbRefill_tokens_le_cap tcfg (tbInit tcfg st now) now hinit.2
    obtain ⟨ht, hcase | hcase⟩ :=
      tb_check_cases tcfg st now tokens r1 st' h1
    · obtain ⟨hall, hr, -⟩ := hcase
      have ht1 : (1 : ℚ) ≤ (tokens : ℚ) := by exact_mod_cast ht
      subst hr
      exact ⟨⟨_, rfl, by linarith, by linarith⟩, le_refl _, fun _ => rfl⟩
    · obtain ⟨hall, hr, -⟩ := hcase
      subst hr
      refine ⟨⟨_, rfl, hs1lo, hs1hi⟩, ?_, fun hcontra => by cases hcontra⟩
      dsimp only
      split
      · next hrate =>
        have hlt := not_le.mp hall
        have hnum : (0 : ℚ) ≤
            (tokens : ℚ) - (tbRefill tcfg (tbInit tcfg st now) now).tokens := by
          linarith
        have hx : (0 : ℚ) ≤
            ((tokens : ℚ) - (tbRefill tcfg (tbInit tcfg st now) now).tokens) /
              tcfg.refill_rate * 1000 :=
          mul_nonneg (div_nonneg hnum hrate.le) (by norm_num)
        exact Int.ceil_nonneg hx
      · exact le_refl _
  · have hmax0 : (0 : ℚ) ≤ (scfg.max_requests : ℚ) := by exact_mod_cast hsv.2.le
    obtain hcase | hcase :=
      sw_check_cases scfg q now_ms r2 q' h2
    · obtain ⟨hlt, hr, -⟩ := hcase
      subst hr
      refine ⟨⟨_, rfl, ?_, ?_⟩, le_refl _, fun _ => rfl⟩
      · have : ((swPrune (now_ms - scfg.window_size_ms) q).length + 1 : ℤ) ≤
            scfg.max_requests := by omega
        have : (0 : ℤ) ≤ scfg.max_requests -
            ((swPrune (now_ms - scfg.window_size_ms) q).length + 1 : ℤ) := by omega
        exact_mod_cast this
      · have : (scfg.max_requests -
            ((swPrune (now_ms - scfg.window_size_ms) q).length + 1 : ℤ) : ℤ) ≤
            scfg.max_requests := by omega
        exact_mod_cast this
    · obtain ⟨hge, oldest, rest, hq1, hr, -⟩ := hcase
      subst hr
      exact ⟨⟨_, rfl, le_refl _, hmax0⟩, le_max_left _ _, fun hcontra => by cases hcontra⟩

theorem inMemory_result_bounds_witness :
    TBValid ⟨3, 0⟩ ∧ TBReachable ⟨3, 0⟩ none ∧ SWValid ⟨200, 2⟩ ∧
      TokenBucketLimiter.check ⟨3, 0⟩ none 0 1 =
        some (⟨true, .val 2, 0, ⟨"token_bucket", "memory", none, none, none⟩⟩,
              ⟨2, 0⟩) ∧
      SlidingWindowLimiter.check ⟨200, 2⟩ [] 10 =
        some (⟨true, .val 1, 0,
               ⟨"sliding_window_log", "memory", none, none, some 200⟩⟩, [10]) ∧
      (((∃ v, (⟨true, (.val 2 : PyFloat), 0,
               ⟨"token_bucket", "memory", none, none, none⟩⟩ :
                RateLimitResult).remaining = PyFloat.val v ∧ 0 ≤ v ∧
                  v ≤ ((3 : ℤ) : ℚ)) ∧
        0 ≤ (⟨true, (.val 2 : PyFloat), 0,
             ⟨"token_bucket", "memory", none, none, none⟩⟩ :
              RateLimitResult).retry_after_ms ∧
        ((⟨true, (.val 2 : PyFloat), 0,
           ⟨"token_bucket", "memory", none, none, none⟩⟩ :
            RateLimitResult).allowed = true →
          (⟨true, (.val 2 : PyFloat), 0,
            ⟨"token_bucket", "memory", none, none, none⟩⟩ :
             RateLimitResult).retry_after_ms = 0)) ∧
       ((∃ v, (⟨true, (.val 1 : PyFloat), 0,
               ⟨"sliding_window_log", "memory", none, none, some 200⟩⟩ :
                RateLimitResult).remaining = PyFloat.val v ∧ 0 ≤ v ∧
                  v ≤ ((2 : ℤ) : ℚ)) ∧
        0 ≤ (⟨true, (.val 1 : PyFloat), 0,
             ⟨"sliding_window_log", "memory", none, none, some 200⟩⟩ :
              RateLimitResult).retry_after_ms ∧
        ((⟨true, (.val 1 : PyFloat), 0,
           ⟨"sliding_window_log", "memory", none, none, some 200⟩⟩ :
            RateLimitResult).allowed = true →
          (⟨true, (.val 1 : PyFloat), 0,
            ⟨"sliding_window_log", "memory", none, none, some 200⟩⟩ :
             RateLimitResult).retry_after_ms = 0))) := by
  have hTB : TokenBucketLimiter.check ⟨3, 0⟩ none 0 1 =
      some (⟨true, .val 2, 0, ⟨"token_bucket", "memory", none, none, none⟩⟩,
            ⟨2, 0⟩) := by
    simp [TokenBucketLimiter.check, tbRefill, tbInit]
    norm_num
  have hSW : SlidingWindowLimiter.check ⟨200, 2⟩ [] 10 =
      some (⟨true, .val 1, 0,
             ⟨"sliding_window_log", "memory", none, none, some 200⟩⟩, [10]) := by
    decide
  exact ⟨by decide, TBReachable.init, by decide, hTB, hSW,
    inMemory_result_bounds ⟨3, 0⟩ ⟨200, 2⟩ none 0 1 _ _ [] 10 _ _
      (by decide) TBReachable.init (by decide) hTB hSW⟩

/-- Claim C4: a denied in-process token-bucket `check` changes the stored
state only by the refill recomputation, and a second check at the same `now`
with the same arguments returns the identical result and leaves the state
unchanged. -/
theorem tokenBucket_denied_idempotent (cfg : TokenBucketConfig)
    (st : Option TBState) (now : ℚ) (tokens : ℤ) (r : RateLimitResult)
    (st' : TBState)
    (h : TokenBucketLimiter.check cfg st now tokens = some (r, st'))
    (hden : r.allowed = false) :
    st' = tbRefill cfg (tbInit cfg st now) now ∧
      TokenBucketLimiter.check cfg (some st') now tokens = some (r, st') := by
  obtain ⟨ht, hcase | hcase⟩ :=
    tb_check_cases cfg st now tokens r st' h
  · obtain ⟨-, hr, -⟩ := hcase
    rw [hr] at hden
    cases hden
  · obtain ⟨hall, hr, hst'⟩ := hcase
    refine ⟨hst', ?_⟩
    have hidem : tbRefill cfg (tbInit cfg (some st') now) now = st' := by
      show tbRefill cfg st' now = st'
      rw [hst', tbRefill_idem]
    unfold TokenBucketLimiter.check
    rw [if_neg (not_le.mpr ht)]
    dsimp only
    rw [hidem, if_neg (by rw [hst']; exact hall)]
    rw [hr, hst']

theorem tokenBucket_denied_idempotent_witness :
    TokenBucketLimiter.check ⟨1, 10⟩ (some ⟨0, 0⟩) 0 1 =
        some (⟨false, .val 0, 100,
               ⟨"token_bucket", "memory", none, none, none⟩⟩, ⟨0, 0⟩) ∧
      (⟨false, (.val 0 : PyFloat), 100,
        ⟨"token_bucket", "memory", none, none, none⟩⟩ :
         RateLimitResult).allowed = false ∧
      ((⟨0, 0⟩ : TBState) = tbRefill ⟨1, 10⟩ (tbInit ⟨1, 10⟩ (some ⟨0, 0⟩) 0) 0 ∧
       TokenBucketLimiter.check ⟨1, 10⟩ (some ⟨0, 0⟩) 0 1 =
         some (⟨false, .val 0, 100,
                ⟨"token_bucket", "memory", none, none, none⟩⟩, ⟨0, 0⟩)) := by
  have hchk : TokenBucketLimiter.check ⟨1, 10⟩ (some ⟨0, 0⟩) 0 1 =
      some (⟨false, .val 0, 100,
             ⟨"token_bucket", "memory", none, none, none⟩⟩, ⟨0, 0⟩) := by
    simp [TokenBucketLimiter.check, tbRefill, tbInit]
    norm_num [Int.ceil_eq_iff]
  exact ⟨hchk, rfl,
    tokenBucket_denied_idempotent ⟨1, 10⟩ (some ⟨0, 0⟩) 0 1 _ _ hchk rfl⟩

/-- The decision component of the in-process token-bucket `check`. -/
def checkAllowed (cfg : TokenBucketConfig) (st : Option TBState) (now : ℚ)
    (tokens : ℤ) : Option Bool :=
  (TokenBucketLimiter.check cfg st now tokens).map (fun p => p.1.allowed)

/-- Claim C10: from any reachable state of a valid in-process token bucket, a
check requesting strictly more tokens than `capacity` is denied, because the
refilled token count never exceeds `capacity`. -/
theorem tokenBucket_over_capacity_denied (cfg : TokenBucketConfig)
    (st : Option TBState) (now : ℚ) (tokens : ℤ) (hv : TBValid cfg)
    (hreach : TBReachable cfg st) (hgt : cfg.capacity < tokens) :
    checkAllowed cfg st now tokens = some false := by
  have hcap0 : (0 : ℚ) ≤ (cfg.capacity : ℚ) := by exact_mod_cast hv.1.le
  have ht : 0 < tokens := lt_trans hv.1 hgt
  have hinit : (tbInit cfg st now).tokens ≤ (cfg.capacity : ℚ) := by
    cases st with
    | none => simp [tbInit]
    | some s0 => exact (tbReachable_bounds cfg hv hreach s0 rfl).2
  have hs1hi := tbRefill_tokens_le_cap cfg (tbInit cfg st now) now hinit
  have hgtQ : (cfg.capacity : ℚ) < (tokens : ℚ) := by exact_mod_cast hgt
  unfold checkAllowed TokenBucketLimiter.check
  rw [if_neg (not_le.mpr ht)]
  dsimp only
  rw [if_neg (not_le.mpr (lt_of_le_of_lt hs1hi hgtQ))]
  rfl

theorem tokenBucket_over_capacity_denied_witness :
    TBValid ⟨3, 0⟩ ∧ TBReachable ⟨3, 0⟩ none ∧ (3 : ℤ) < 4 ∧
      checkAllowed ⟨3, 0⟩ none 0 4 = some false :=
  ⟨by decide, TBReachable.init, by decide,
   tokenBucket_over_capacity_denied ⟨3, 0⟩ none 0 4 (by decide) TBReachable.init
     (by decide)⟩

theorem swPrune_subset (cutoff : ℤ) (q : List ℤ) :
    ∀ x ∈ swPrune cutoff q, x ∈ q := by
  induction q with
  | nil => simp [swPrune]
  | cons a l ih =>
    intro x hx
    unfold swPrune at hx
    split at hx
    · exact List.mem_cons_of_mem a (ih x hx)
    · exact hx

theorem swPrune_length_le (cutoff : ℤ) (q : List ℤ) :
    (swPrune cutoff q).length ≤ q.length := by
  induction q with
  | nil => simp [swPrune]
  | cons a l ih =>
    unfold swPrune
    split
    · exact le_trans ih (by simp)
    · exact le_refl _

theorem swPrune_sorted (cutoff : ℤ) (q : List ℤ) :
    q.Sorted (· ≤ ·) → (swPrune cutoff q).Sorted (· ≤ ·) := by
  induction q with
  | nil => intro _; simp [swPrune]
  | cons a l ih =>
    intro h
    unfold swPrune
    split
    · exact ih h.of_cons
    · exact h

theorem swPrune_gt (cutoff : ℤ) (q : List ℤ) :
    q.Sorted (· ≤ ·) → ∀ x ∈ swPrune cutoff q, cutoff < x := by
  induction q with
  | nil => intro _ x hx; simp [swPrune] at hx
  | cons a l ih =>
    intro h x hx
    unfold swPrune at hx
    split at hx
    · exact ih h.of_cons x hx
    · next ha =>
      rcases List.mem_cons.mp hx with rfl | hxl
      · exact not_le.mp ha
      · exact lt_of_lt_of_le (not_le.mp ha) (List.rel_of_sorted_cons h x hxl)

/-- The state invariant of the in-process sliding window relative to the most
recent clock value: the stored deque is sorted, holds at most `max_requests`
entries, and every entry is at most that clock value. -/
def SWInv (cfg : SlidingWindowConfig) (now : ℤ) (q : List ℤ) : Prop :=
  q.Sorted (· ≤ ·) ∧ (q.length : ℤ) ≤ cfg.max_requests ∧ ∀ x ∈ q, x ≤ now

theorem SWInv.mono (cfg : SlidingWindowConfig) {n n' : ℤ} {q : List ℤ}
    (h : SWInv cfg n q) (hle : n ≤ n') : SWInv cfg n' q :=
  ⟨h.1, h.2.1, fun x hx => le_trans (h.2.2 x hx) hle⟩

theorem sw_check_inv (cfg : SlidingWindowConfig) (q : List ℤ) (now_ms : ℤ)
    (r : RateLimitResult) (q' : List ℤ) (hw : 0 < cfg.window_size_ms)
    (hinv : SWInv cfg now_ms q)
    (h : SlidingWindowLimiter.check cfg q now_ms = some (r, q')) :
    SWInv cfg now_ms q' ∧ ∀ x ∈ q', now_ms - cfg.window_size_ms < x := by
  obtain ⟨hsort, hlen, hub⟩ := hinv
  have hps := swPrune_sorted (now_ms - cfg.window_size_ms) q hsort
  have hpsub := swPrune_subset (now_ms - cfg.window_size_ms) q
  have hpgt := swPrune_gt (now_ms - cfg.window_size_ms) q hsort
  have hplen := swPrune_length_le (now_ms - cfg.window_size_ms) q
  obtain hcase | hcase := sw_check_cases cfg q now_ms r q' h
  · obtain ⟨hlt, -, hq'⟩ := hcase
    subst hq'
    refine ⟨⟨?_, ?_, ?_⟩, ?_⟩
    · refine List.pairwise_append.mpr ⟨hps, List.pairwise_singleton _ _, ?_⟩
      intro a ha b hb
      rw [List.mem_singleton] at hb
      subst hb
      exact hub a (hpsub a ha)
    · have hlen1 : ((swPrune (now_ms - cfg.window_size_ms) q).length : ℤ) <
          cfg.max_requests := hlt
      simp only [List.length_append, List.length_singleton]
      omega
    · intro x hx
      rcases List.mem_append.mp hx with hx1 | hx1
      · exact hub x (hpsub x hx1)
      · rw [List.mem_singleton] at hx1
        subst hx1
        exact le_refl x
    · intro x hx
      rcases List.mem_append.mp hx with hx1 | hx1
      · exact hpgt x hx1
      · rw [List.mem_singleton] at hx1
        subst hx1
        omega
  · obtain ⟨hge, oldest, rest, hq1, -, hq'⟩ := hcase
    subst hq'
    rw [← hq1]
    refine ⟨⟨hps, ?_, fun x hx => hub x (hpsub x hx)⟩, fun x hx => hpgt x hx⟩
    exact le_trans (by exact_mod_cast hplen) hlen

/-- Claim C3: over any non-decreasing sequence of clock values, at the end of
every in-process sliding-window decision the stored timestamps number at most
`max_requests` and each lies in `(now − window_size_ms, now]` for that
decision's `now`. -/
theorem slidingWindow_trace_invariant (cfg : SlidingWindowConfig)
    (nows : List ℤ) (p : ℤ × List ℤ) (hv : SWValid cfg)
    (hnd : nows.Chain' (· ≤ ·)) (hp : p ∈ swTrace cfg [] nows) :
    ((p.2.length : ℤ) ≤ cfg.max_requests ∧
     ∀ x ∈ p.2, p.1 - cfg.window_size_ms < x ∧ x ≤ p.1) := by
  have aux : ∀ (ns : List ℤ) (q : List ℤ) (n0 : ℤ), SWInv cfg n0 q →
      List.Chain (· ≤ ·) n0 ns → ∀ p1 ∈ swTrace cfg q ns,
        ((p1.2.length : ℤ) ≤ cfg.max_requests ∧
         ∀ x ∈ p1.2, p1.1 - cfg.window_size_ms < x ∧ x ≤ p1.1) := by
    intro ns
    induction ns with
    | nil => intro q n0 _ _ p1 hp1; simp [swTrace] at hp1
    | cons n ns1 ih =>
      intro q n0 hinv hch p1 hp1
      rw [List.chain_cons] at hch
      unfold swTrace at hp1
      cases hchk : SlidingWindowLimiter.check cfg q n with
      | none => rw [hchk] at hp1; simp at hp1
      | some rq =>
        obtain ⟨r1, q1⟩ := rq
        rw [hchk] at hp1
        simp only [List.mem_cons] at hp1
        have hstep := sw_check_inv cfg q n r1 q1 hv.1
          (SWInv.mono cfg hinv hch.1) hchk
        rcases hp1 with rfl | hp1
        · exact ⟨hstep.1.2.1, fun x hx => ⟨hstep.2 x hx, hstep.1.2.2 x hx⟩⟩
        · exact ih q1 n hstep.1 hch.2 p1 hp1
  cases nows with
  | nil => simp [swTrace] at hp
  | cons n ns =>
    refine aux (n :: ns) [] n ⟨List.sorted_nil, ?_, by simp⟩
      (List.chain_cons.mpr ⟨le_refl n, hnd⟩) p hp
    simpa using hv.2.le

theorem slidingWindow_trace_invariant_witness :
    SWValid ⟨200, 2⟩ ∧ List.Chain' (· ≤ ·) [0, 50, 120] ∧
      ((120 : ℤ), [(0 : ℤ), 50]) ∈ swTrace ⟨200, 2⟩ [] [0, 50, 120] ∧
      ((([(0 : ℤ), 50].length : ℤ) ≤ (2 : ℤ)) ∧
       ∀ x ∈ [(0 : ℤ), 50], (120 : ℤ) - 200 < x ∧ x ≤ (120 : ℤ)) := by
  refine ⟨by decide, by norm_num [List.chain'_cons], by decide, ?_⟩
  exact slidingWindow_trace_invariant ⟨200, 2⟩ [0, 50, 120] (120, [0, 50])
    (by decide) (by norm_num [List.chain'_cons]) (by decide)

/-- Claim C5 as frozen is false on the code: a connectivity error raised
inside the `except NoScriptError` handler (during the fallback `EVAL` or the
re-`SCRIPT LOAD`) is not caught by the sibling connectivity clause of the
same `try`, so that call's KV round-trip fails with a connectivity error yet
`check` raises instead of returning the fail-open result, even with
`fail_open` configured. -/
theorem redis_failure_policy_counterexample :
    RedisTokenBucketLimiter.check 1 ⟨"localhost", 6379, 0, "rate:", true, 1, 1⟩
        (.noScript (.error "connection refused")) = none ∧
    (none : Option RateLimitResult) ≠
      some ⟨true, .inf, 0,
            ⟨"token_bucket", "redis", some "fail_open",
             some "connection refused", none⟩⟩ :=
  ⟨rfl, by decide⟩

/-- Claim C5 (amended): when the primary KV invocation (`SCRIPT LOAD` when
the digest is uncached, then `EVALSHA`) fails with a connectivity or timeout
error, `fail_open` yields `allowed = true`, `remaining = +∞`,
`retry_after_ms = 0` and `metadata.mode = "fail_open"`, while `fail_closed`
yields `allowed = false`, `remaining = 0`, `retry_after_ms = 0` and
`metadata.mode = "fail_closed"`, for both shared limiters; a connectivity or
timeout error raised inside the `NoScriptError` fallback instead propagates
out of `check` uncaught. -/
theorem redis_failure_policy (tokens : ℤ) (rcfg : RedisConfig) (msg : String)
    (ht : 0 < tokens) :
    (rcfg.fail_open = true →
      RedisTokenBucketLimiter.check tokens rcfg (.connError msg) =
        some ⟨true, .inf, 0,
              ⟨"token_bucket", "redis", some "fail_open", some msg, none⟩⟩ ∧
      RedisSlidingWindowLimiter.check rcfg (.connError msg) =
        some ⟨true, .inf, 0,
              ⟨"sliding_window_log", "redis", some "fail_open", some msg,
               none⟩⟩) ∧
    (rcfg.fail_open = false →
      RedisTokenBucketLimiter.check tokens rcfg (.connError msg) =
        some ⟨false, .val 0, 0,
              ⟨"token_bucket", "redis", some "fail_closed", some msg, none⟩⟩ ∧
      RedisSlidingWindowLimiter.check rcfg (.connError msg) =
        some ⟨false, .val 0, 0,
              ⟨"sliding_window_log", "redis", some "fail_closed", some msg,
               none⟩⟩) ∧
    (RedisTokenBucketLimiter.check tokens rcfg (.noScript (.error msg)) =
        none ∧
     RedisSlidingWindowLimiter.check rcfg (.noScript (.error msg)) = none) := by
  have ht' : ¬ tokens ≤ 0 := not_le.mpr ht
  refine ⟨?_, ?_, ?_, ?_⟩
  · intro hfo
    constructor
    · simp [RedisTokenBucketLimiter.check, ht', hfo]
    · simp [RedisSlidingWindowLimiter.check, hfo]
  · intro hfo
    constructor
    · simp [RedisTokenBucketLimiter.check, ht', hfo]
    · simp [RedisSlidingWindowLimiter.check, hfo]
  · simp [RedisTokenBucketLimiter.check, ht']
  · simp [RedisSlidingWindowLimiter.check]

theorem redis_failure_policy_witness :
    (0 : ℤ) < 1 ∧
      ((⟨"localhost", 6379, 0, "rate:", true, 1, 1⟩ :
          RedisConfig).fail_open = true →
        RedisTokenBucketLimiter.check 1 ⟨"localhost", 6379, 0, "rate:", true, 1, 1⟩
            (.connError "down") =
          some ⟨true, .inf, 0,
                ⟨"token_bucket", "redis", some "fail_open", some "down", none⟩⟩ ∧
        RedisSlidingWindowLimiter.check ⟨"localhost", 6379, 0, "rate:", true, 1, 1⟩
            (.connError "down") =
          some ⟨true, .inf, 0,
                ⟨"sliding_window_log", "redis", some "fail_open", some "down",
                 none⟩⟩) ∧
      ((⟨"localhost", 6379, 0, "rate:", true, 1, 1⟩ :
          RedisConfig).fail_open = false →
        RedisTokenBucketLimiter.check 1 ⟨"localhost", 6379, 0, "rate:", true, 1, 1⟩
            (.connError "down") =
          some ⟨false, .val 0, 0,
                ⟨"token_bucket", "redis", some "fail_closed", some "down", none⟩⟩ ∧
        RedisSlidingWindowLimiter.check ⟨"localhost", 6379, 0, "rate:", true, 1, 1⟩
            (.connError "down") =
          some ⟨false, .val 0, 0,
                ⟨"sliding_window_log", "redis", some "fail_closed", some "down",
                 none⟩⟩) ∧
      (RedisTokenBucketLimiter.check 1 ⟨"localhost", 6379, 0, "rate:", true, 1, 1⟩
          (.noScript (.error "down")) = none ∧
       RedisSlidingWindowLimiter.check ⟨"localhost", 6379, 0, "rate:", true, 1, 1⟩
          (.noScript (.error "down")) = none) :=
  ⟨by decide,
   (redis_failure_policy 1 ⟨"localhost", 6379, 0, "rate:", true, 1, 1⟩ "down"
       (by decide)).1,
   (redis_failure_policy 1 ⟨"localhost", 6379, 0, "rate:", true, 1, 1⟩ "down"
       (by decide)).2.1,
   (redis_failure_policy 1 ⟨"localhost", 6379, 0, "rate:", true, 1, 1⟩ "down"
       (by decide)).2.2⟩

/-- Claim C6 as frozen is false on the code: the shared-state limiters tag
their results with `backend = "redis"`, which is neither `"memory"` nor
`"shared"`.  A successful shared token-bucket call exhibits it. -/
theorem limiter_metadata_counterexample :
    RedisTokenBucketLimiter.check 1 ⟨"localhost", 6379, 0, "rate:", true, 1, 1⟩
        (.ok 1 2 0) =
      some ⟨true, .val 2, 0, ⟨"token_bucket", "redis", none, none, none⟩⟩ ∧
    ("redis" : String) ≠ "memory" ∧ ("redis" : String) ≠ "shared" :=
  ⟨rfl, by decide, by decide⟩

/-- The metadata contract the code actually satisfies:
`algorithm ∈ {token_bucket, sliding_window_log}` and
`backend ∈ {memory, redis}`. -/
def MetadataOk (m : Metadata) : Prop :=
  (m.algorithm = "token_bucket" ∨ m.algorithm = "sliding_window_log") ∧
  (m.backend = "memory" ∨ m.backend = "redis")

/-- Claim C6 (amended): every result returned by the four `rate_limiter`
limiters carries metadata with `algorithm ∈ {token_bucket,
sliding_window_log}` and `backend ∈ {memory, redis}` (the code writes
`"redis"`, not the spec's `"shared"`, for the shared backend). -/
theorem limiter_metadata_fields (tcfg : TokenBucketConfig)
    (scfg : SlidingWindowConfig) (st : Option TBState) (now : ℚ) (tokens : ℤ)
    (r1 : RateLimitResult) (st' : TBState) (q : List ℤ) (now_ms : ℤ)
    (r2 : RateLimitResult) (q' : List ℤ) (tk : ℤ) (rcfg : RedisConfig)
    (oc1 : KVOutcome) (r3 : RateLimitResult) (oc2 : KVOutcome)
    (r4 : RateLimitResult)
    (h1 : TokenBucketLimiter.check tcfg st now tokens = some (r1, st'))
    (h2 : SlidingWindowLimiter.check scfg q now_ms = some (r2, q'))
    (h3 : RedisTokenBucketLimiter.check tk rcfg oc1 = some r3)
    (h4 : RedisSlidingWindowLimiter.check rcfg oc2 = some r4) :
    MetadataOk r1.metadata ∧ MetadataOk r2.metadata ∧ MetadataOk r3.metadata ∧
      MetadataOk r4.metadata := by
  refine ⟨?_, ?_, ?_, ?_⟩
  · obtain ⟨-, hcase | hcase⟩ :=
      tb_check_cases tcfg st now tokens r1 st' h1 <;>
      · rw [hcase.2.1]
        exact ⟨Or.inl rfl, Or.inl rfl⟩
  · obtain hcase | hcase :=
      sw_check_cases scfg q now_ms r2 q' h2
    · rw [hcase.2.1]
      exact ⟨Or.inr rfl, Or.inl rfl⟩
    · obtain ⟨-, oldest, rest, -, hr, -⟩ := hcase
      rw [hr]
      exact ⟨Or.inr rfl, Or.inl rfl⟩
  · by_cases htk : tk ≤ 0
    · simp [RedisTokenBucketLimiter.check, htk] at h3
    · cases oc1 with
      | ok a l m =>
        simp only [RedisTokenBucketLimiter.check, if_neg htk,
          Option.some.injEq] at h3
        rw [← h3]
        exact ⟨Or.inl rfl, Or.inr rfl⟩
      | noScript fb =>
        cases fb with
        | ok t =>
          obtain ⟨a, l, m⟩ := t
          simp only [RedisTokenBucketLimiter.check, if_neg htk,
            Option.some.injEq] at h3
          rw [← h3]
          exact ⟨Or.inl rfl, Or.inr rfl⟩
        | error e => simp [RedisTokenBucketLimiter.check, htk] at h3
      | connError msg =>
        by_cases hfo : rcfg.fail_open <;>
          · simp [RedisTokenBucketLimiter.check, htk, hfo] at h3
            rw [← h3]
            exact ⟨Or.inl rfl, Or.inr rfl⟩
  · cases oc2 with
    | ok a l m =>
      simp only [RedisSlidingWindowLimiter.check, Option.some.injEq] at h4
      rw [← h4]
      exact ⟨Or.inr rfl, Or.inr rfl⟩
    | noScript fb =>
      cases fb with
      | ok t =>
        obtain ⟨a, l, m⟩ := t
        simp only [RedisSlidingWindowLimiter.check, Option.some.injEq] at h4
        rw [← h4]
        exact ⟨Or.inr rfl, Or.inr rfl⟩
      | error e => simp [RedisSlidingWindowLimiter.check] at h4
    | connError msg =>
      by_cases hfo : rcfg.fail_open <;>
        · simp [RedisSlidingWindowLimiter.check, hfo] at h4
          rw [← h4]
          exact ⟨Or.inr rfl, Or.inr rfl⟩

theorem limiter_metadata_fields_witness :
    TokenBucketLimiter.check ⟨3, 0⟩ none 0 1 =
        some (⟨true, .val 2, 0, ⟨"token_bucket", "memory", none, none, none⟩⟩,
              ⟨2, 0⟩) ∧
      SlidingWindowLimiter.check ⟨200, 2⟩ [] 10 =
        some (⟨true, .val 1, 0,
               ⟨"sliding_window_log", "memory", none, none, some 200⟩⟩, [10]) ∧
      RedisTokenBucketLimiter.check 1 ⟨"localhost", 6379, 0, "rate:", true, 1, 1⟩
          (.ok 1 2 0) =
        some ⟨true, .val 2, 0, ⟨"token_bucket", "redis", none, none, none⟩⟩ ∧
      RedisSlidingWindowLimiter.check ⟨"localhost", 6379, 0, "rate:", true, 1, 1⟩
          (.ok 1 1 0) =
        some ⟨true, .val 1, 0,
              ⟨"sliding_window_log", "redis", none, none, none⟩⟩ ∧
      (MetadataOk (⟨"token_bucket", "memory", none, none, none⟩ : Metadata) ∧
       MetadataOk
         (⟨"sliding_window_log", "memory", none, none, some 200⟩ : Metadata) ∧
       MetadataOk (⟨"token_bucket", "redis", none, none, none⟩ : Metadata) ∧
       MetadataOk
         (⟨"sliding_window_log", "redis", none, none, none⟩ : Metadata)) := by
  have hTB : TokenBucketLimiter.check ⟨3, 0⟩ none 0 1 =
      some (⟨true, .val 2, 0, ⟨"token_bucket", "memory", none, none, none⟩⟩,
            ⟨2, 0⟩) := by
    simp [TokenBucketLimiter.check, tbRefill, tbInit]
    norm_num
  have hSW : SlidingWindowLimiter.check ⟨200, 2⟩ [] 10 =
      some (⟨true, .val 1, 0,
             ⟨"sliding_window_log", "memory", none, none, some 200⟩⟩, [10]) := by
    decide
  have hR : RedisTokenBucketLimiter.check 1
      ⟨"localhost", 6379, 0, "rate:", true, 1, 1⟩ (.ok 1 2 0) =
      some ⟨true, .val 2, 0, ⟨"token_bucket", "redis", none, none, none⟩⟩ := rfl
  have hR2 : RedisSlidingWindowLimiter.check
      ⟨"localhost", 6379, 0, "rate:", true, 1, 1⟩ (.ok 1 1 0) =
      some ⟨true, .val 1, 0,
            ⟨"sliding_window_log", "redis", none, none, none⟩⟩ := rfl
  exact ⟨hTB, hSW, hR, hR2,
    limiter_metadata_fields ⟨3, 0⟩ ⟨200, 2⟩ none 0 1 _ _ [] 10 _ _ 1
      ⟨"localhost", 6379, 0, "rate:", true, 1, 1⟩ (.ok 1 2 0) _ (.ok 1 1 0) _
      hTB hSW hR hR2⟩

/-- Claim C7 as frozen is false on the code: the `/limited` handler catches
every exception, and a non-connectivity error (here a `ValueError`) falls
through to the fail-open success branch with HTTP 200 — not HTTP 500 — under
both failure modes. -/
theorem limited_unexpected_error_counterexample :
    limitedOnException "fail_open" (.other "ValueError" "boom") =
      ⟨200, [("ok", "true"), ("limited", "false"), ("mode", "fail_open"),
             ("note", "redis unavailable; request allowed")]⟩ ∧
    limitedOnException "fail_closed" (.other "ValueError" "boom") =
      ⟨200, [("ok", "true"), ("limited", "false"), ("mode", "fail_open"),
             ("note", "redis unavailable; request allowed")]⟩ ∧
    (200 : ℤ) ≠ 500 :=
  ⟨rfl, rfl, by decide⟩

/-- Claim C7 (amended): a limiter exception that is not a KV connectivity or
timeout error is swallowed by the handler's `except Exception` branch and
answered with the HTTP 200 fail-open success body — whatever the configured
failure mode — rather than propagating as HTTP 500; the handler itself
mutates no limiter state (it is a pure function of the exception). -/
theorem limited_unexpected_error_fail_open (failureMode cls msg : String) :
    limitedOnException failureMode (.other cls msg) =
      ⟨200, [("ok", "true"), ("limited", "false"), ("mode", "fail_open"),
             ("note", "redis unavailable; request allowed")]⟩ := by
  simp [limitedOnException, is_redis_available]

theorem ceil_div_thousand (ms : ℤ) : ⌈(ms : ℚ) / 1000⌉ = (ms + 999) / 1000 := by
  have h1 : (ms : ℚ) / 1000 = -(((-ms : ℤ) : ℚ) / ((1000 : ℕ) : ℚ)) := by
    push_cast
    ring
  rw [h1, Int.ceil_neg, Rat.floor_intCast_div_natCast]
  omega

/-- Claim C8: for a denied request the adapter's `Retry-After` value is the
retry delay converted to whole seconds rounded up with a floor of 1, no
header is produced for a non-positive delay, and `retry_after_ms = 1200`
yields the header value `"2"`. -/
theorem retry_after_header_spec (ms : ℤ) :
    (ms ≤ 0 → retry_after_header_value ms = none) ∧
    (0 < ms →
      retry_after_header_value ms = some (toString (max 1 ⌈(ms : ℚ) / 1000⌉))) ∧
    retry_after_header_value 1200 = some "2" := by
  refine ⟨fun hle => by simp [retry_after_header_value, hle], fun hpos => ?_, ?_⟩
  · unfold retry_after_header_value
    rw [if_neg (not_le.mpr hpos), ceil_div_thousand,
      Int.fdiv_eq_ediv _ (by norm_num)]
  · rfl

theorem retry_after_header_spec_witness :
    (0 : ℤ) < 1200 ∧
      retry_after_header_value 1200 =
        some (toString (max 1 ⌈((1200 : ℤ) : ℚ) / 1000⌉)) :=
  ⟨by decide, (retry_after_header_spec 1200).2.1 (by decide)⟩

/-- Claim C9 as frozen is false on the code: the library's shared-state
limiters concatenate the configured prefix and the user key with no separator
of their own, so prefix `"p"` and key `"k"` store under `"pk"`, not
`"p:k"`. -/
theorem kv_storage_key_counterexample :
    RedisTokenBucketLimiter.kvKey ⟨"localhost", 6379, 0, "p", true, 1, 1⟩ "k" =
        "pk" ∧
      ("pk" : String) ≠ "p" ++ ":" ++ "k" :=
  ⟨rfl, by decide⟩

/-- Claim C9 (amended): the app adapter's shared bucket stores under
`"<prefix>:<key>"`; the library's shared limiters store under the plain
concatenation `"<prefix><key>"`, so only their default prefix `"rate:"`
(which itself ends in a colon) still produces colon-separated keys
`"rate" ++ ":" ++ key`. -/
theorem kv_storage_key_shapes (rcfg : RedisConfig) (keyPfx key : String) :
    RedisTokenBucket.bucket_key keyPfx key = keyPfx ++ ":" ++ key ∧
    RedisTokenBucketLimiter.kvKey rcfg key = rcfg.keyPrefix ++ key ∧
    RedisSlidingWindowLimiter.kvKey rcfg key = rcfg.keyPrefix ++ key ∧
    RedisTokenBucketLimiter.kvKey
        ⟨rcfg.host, rcfg.port, rcfg.db, "rate:", rcfg.fail_open,
         rcfg.socket_connect_timeout_s, rcfg.socket_timeout_s⟩ key =
      "rate" ++ ":" ++ key := by
  refine ⟨rfl, rfl, rfl, ?_⟩
  show "rate:" ++ key = "rate" ++ ":" ++ key
  rfl

end RateLimiter
